import Mathlib

/-!
Verification of the workout-logging application core (src/app.py, src/models.py)
against its natural-language specification.

Modelling conventions:
- The relational store is a record of lists of rows, mirroring the SQLAlchemy
  models in src/models.py.
- Python floats are modelled as exact rationals; Python ints as Lean Int/Nat;
  timestamps as Nat seconds since the epoch (datetime.utcnow values are passed
  in explicitly as a parameter called now, and each operation receives the
  current time where the source calls utcnow).
- Python strings arriving from request forms are modelled at two levels: raw
  text as lists of character codes (ASCII assumed, which covers every string
  the source compares or normalizes), and numeric form fields as a parse
  outcome (missing, unparsable, or a parsed value), since the source first
  applies float()/int() to the raw field.
- Each Flask endpoint body is translated into a pure function from inputs and
  a store to either an error (the flashed rejection) or an updated store.
  Every rejection in the source happens before any db.session.add or mutation,
  and every exception handler rolls back, so a rejected operation leaves the
  store unchanged; the embedding reflects this by returning errors without a
  store.
-/

/-- Python strings are modelled as lists of character codes (ASCII fragment). -/
abbrev PyStr : Type := List Nat

/-- Whitespace characters removed by str.strip (ASCII fragment). -/
def isSpaceCode (n : Nat) : Bool :=
  n == 32 || n == 9 || n == 10 || n == 13 || n == 11 || n == 12

/-- Alphabetic character test for ASCII codes, as used by str.title word
boundaries (cased characters). -/
def isAlphaCode (n : Nat) : Bool :=
  (65 ≤ n && n ≤ 90) || (97 ≤ n && n ≤ 122)

/-- Lower-casing of an ASCII code. -/
def toLowerCode (n : Nat) : Nat :=
  if 65 ≤ n ∧ n ≤ 90 then n + 32 else n

/-- Upper-casing of an ASCII code. -/
def toUpperCode (n : Nat) : Nat :=
  if 97 ≤ n ∧ n ≤ 122 then n - 32 else n

/-- Embedding of Python str.strip(): removes leading and trailing whitespace. -/
def pyStrip (s : PyStr) : PyStr :=
  ((s.dropWhile isSpaceCode).reverse.dropWhile isSpaceCode).reverse

/-- Helper for pyTitle: the Bool argument records whether the previous
character was alphabetic (Python title-case uppercases a cased character that
does not follow a cased character and lowercases the rest). -/
def pyTitleAux : Bool → List Nat → List Nat
  | _, [] => []
  | prev, c :: cs =>
    (if isAlphaCode c then (if prev then toLowerCode c else toUpperCode c) else c)
      :: pyTitleAux (isAlphaCode c) cs

/-- Embedding of Python str.title(). -/
def pyTitle (s : PyStr) : PyStr := pyTitleAux false s

/-- Parse outcome of a numeric form field that the source feeds to int():
absent (request.form.get returned None or the empty string), present but
unparsable, or parsed to an integer. -/
inductive FormInt where
  | missing : FormInt
  | bad : FormInt
  | val : Int → FormInt
  deriving Repr, DecidableEq

/-- Parse outcome of a numeric form field that the source feeds to float(). -/
inductive FormRat where
  | missing : FormRat
  | bad : FormRat
  | val : ℚ → FormRat
  deriving Repr, DecidableEq

/-- Parse outcome of a date form field (value is a timestamp in seconds). -/
inductive FormNat where
  | missing : FormNat
  | bad : FormNat
  | val : Nat → FormNat
  deriving Repr, DecidableEq

/-- Value carried by a FormRat, if any. -/
def FormRat.toOption : FormRat → Option ℚ
  | .missing => none
  | .bad => none
  | .val q => some q

/-- True when the field was present but unparsable. -/
def FormRat.isBad : FormRat → Bool
  | .bad => true
  | _ => false

/-- True when the field was present but unparsable. -/
def FormNat.isBad : FormNat → Bool
  | .bad => true
  | _ => false

/-- Row of the workout_sessions table (models.py, WorkoutSession). -/
structure SessionRow where
  sid : Nat
  userId : Nat
  startTime : Nat
  endTime : Option Nat
  durationMinutes : Option Int
  createdAt : Nat
  deriving Repr, DecidableEq

/-- Row of the workout_logs table (models.py, WorkoutLog). -/
structure LogRow where
  lid : Nat
  sessionId : Nat
  exerciseId : Nat
  setNumber : Nat
  reps : Option Int
  weight : Option ℚ
  calories : Option ℚ
  timeMinutes : Option ℚ
  setType : String
  createdAt : Nat
  deriving Repr, DecidableEq

/-- Row of the personal_records table (models.py, PersonalRecord). -/
structure PRRow where
  userId : Nat
  exerciseId : Nat
  weight : ℚ
  reps : Int
  achievedAt : Nat
  deriving Repr, DecidableEq

/-- Row of the exercises table (models.py, Exercise). -/
structure ExerciseRow where
  eid : Nat
  name : PyStr
  description : Option PyStr
  exerciseType : Option PyStr
  isBodyweight : Bool
  isCardio : Bool
  deriving Repr, DecidableEq

/-- Row of the weight_logs table (models.py, WeightLog). -/
structure WeightLogRow where
  userId : Nat
  weight : ℚ
  bodyFatPercentage : Option ℚ
  visceralFat : Option ℚ
  notes : Option PyStr
  loggedAt : Nat
  deriving Repr, DecidableEq

/-- Row of the bloodwork_logs table (models.py, BloodworkLog). -/
structure BloodworkRow where
  userId : Nat
  testDate : Nat
  testosteroneTotal : Option ℚ
  testosteroneFree : Option ℚ
  shbg : Option ℚ
  oestradiol : Option ℚ
  prolactin : Option ℚ
  hba1c : Option ℚ
  glucoseFasting : Option ℚ
  insulinFasting : Option ℚ
  homaIndex : Option ℚ
  notes : PyStr
  createdAt : Nat
  deriving Repr, DecidableEq

/-- The shared relational store: one list per table, plus the next
auto-increment primary key for tables whose keys the operations read. -/
structure Store where
  sessions : List SessionRow
  logs : List LogRow
  prs : List PRRow
  exercises : List ExerciseRow
  weightLogs : List WeightLogRow
  bloodworks : List BloodworkRow
  nextSessionId : Nat
  nextLogId : Nat
  nextExerciseId : Nat
  deriving Repr, DecidableEq

/-- Store with no rows. -/
def emptyStore : Store :=
  { sessions := [], logs := [], prs := [], exercises := [], weightLogs := [],
    bloodworks := [], nextSessionId := 1, nextLogId := 1, nextExerciseId := 1 }

/-- Predicate picking the open session rows of a user: the filter
WorkoutSession.query.filter_by(user_id=..., end_time=None) used throughout
app.py. -/
def isOpenFor (u : Nat) (r : SessionRow) : Bool :=
  r.userId == u && r.endTime == none

/-- Embedding of the .first() query for the active session of a user. -/
def findOpen (u : Nat) (s : Store) : Option SessionRow :=
  s.sessions.find? (isOpenFor u)

/-- Number of open sessions a user has in the store. -/
def openCount (u : Nat) (s : Store) : Nat :=
  s.sessions.countP (isOpenFor u)

/-- Embedding of start_workout (app.py lines 233-255): if the user already has
an open session, nothing happens; otherwise a new session starting now is
inserted. -/
def startWorkout (u now : Nat) (s : Store) : Store :=
  match findOpen u s with
  | some _ => s
  | none =>
    { s with
      sessions := s.sessions ++
        [{ sid := s.nextSessionId, userId := u, startTime := now,
           endTime := none, durationMinutes := none, createdAt := now }],
      nextSessionId := s.nextSessionId + 1 }

/-- Embedding of finish_workout (app.py lines 343-358): the active session, if
any, gets end_time = now and duration_minutes = int((end - start)/60); Python
int() truncates toward zero, which Int.tdiv matches. -/
def finishWorkout (u now : Nat) (s : Store) : Store :=
  match findOpen u s with
  | none => s
  | some active =>
    { s with
      sessions := s.sessions.map (fun r =>
        if r.sid == active.sid then
          { r with endTime := some now,
                   durationMinutes := some (((now : Int) - (r.startTime : Int)).tdiv 60) }
        else r) }

/-- Embedding of cancel_workout (app.py lines 360-373): deleting the active
session also deletes its workout logs through the delete-orphan cascade
declared on WorkoutSession.workout_logs in models.py. -/
def cancelWorkout (u : Nat) (s : Store) : Store :=
  match findOpen u s with
  | none => s
  | some active =>
    { s with
      sessions := s.sessions.filter (fun r => !(r.sid == active.sid)),
      logs := s.logs.filter (fun l => !(l.sessionId == active.sid)) }

/-- Predicate picking the personal record of a (user, exercise) pair. -/
def prKey (u e : Nat) (p : PRRow) : Bool :=
  p.userId == u && p.exerciseId == e

/-- The personal-records part of update_pr (app.py lines 375-392): insert when
no record exists, overwrite weight, reps and achieved_at when the new weight
strictly exceeds the stored one, otherwise leave the list unchanged. -/
def upsertPR (u e : Nat) (w : ℚ) (r : Int) (now : Nat) (prs : List PRRow) : List PRRow :=
  match prs.find? (prKey u e) with
  | none => prs ++ [{ userId := u, exerciseId := e, weight := w, reps := r, achievedAt := now }]
  | some pr =>
    if pr.weight < w then
      prs.map (fun p =>
        if prKey u e p then { p with weight := w, reps := r, achievedAt := now } else p)
    else prs

/-- Embedding of update_pr (app.py lines 375-392). -/
def update_pr (u e : Nat) (w : ℚ) (r : Int) (now : Nat) (s : Store) : Store :=
  { s with prs := upsertPR u e w r now s.prs }

/-- Set numbers already logged for a (session, exercise) pair, in insertion
order. -/
def setNumbersFor (sid eid : Nat) (logs : List LogRow) : List Nat :=
  (logs.filter (fun l => l.sessionId == sid && l.exerciseId == eid)).map
    (fun l => l.setNumber)

/-- Largest existing set number for a (session, exercise) pair, 0 when none
exist: the source reads the row with the highest set_number via
order_by(set_number.desc()).first(). -/
def maxSetNumber (sid eid : Nat) (logs : List LogRow) : Nat :=
  (setNumbersFor sid eid logs).foldr max 0

/-- Rejection reasons of add_set (app.py lines 257-341), one per flashed
error message, in source order. -/
inductive AddSetError where
  | noActiveSession : AddSetError
  | invalidSetType : AddSetError
  | missingExercise : AddSetError
  | invalidExercise : AddSetError
  | exerciseNotFound : AddSetError
  | invalidReps : AddSetError
  | repsOutOfRange : AddSetError
  | invalidWeight : AddSetError
  | weightOutOfRange : AddSetError
  deriving Repr, DecidableEq

/-- Embedding of Exercise.query.get on a parsed form id. -/
def findExercise (i : Int) (s : Store) : Option ExerciseRow :=
  s.exercises.find? (fun e => ((e.eid : Int) == i))

/-- Tail of add_set after all validation passed (app.py lines 316-338):
computes the next set number, inserts the log row, and, when the set is a
working set with a truthy (present and nonzero) weight, runs update_pr. -/
def insertSetAndPR (u now : Nat) (active : SessionRow) (ex : ExerciseRow)
    (reps : Int) (weightFloat : Option ℚ) (setType : String) (s : Store) : Store :=
  let setNumber := maxSetNumber active.sid ex.eid s.logs + 1
  let row : LogRow :=
    { lid := s.nextLogId, sessionId := active.sid, exerciseId := ex.eid,
      setNumber := setNumber, reps := some reps, weight := weightFloat,
      calories := none, timeMinutes := none, setType := setType, createdAt := now }
  let s1 := { s with logs := s.logs ++ [row], nextLogId := s.nextLogId + 1 }
  match weightFloat with
  | some w =>
    if setType == "working" && !(w == 0) then update_pr u ex.eid w reps now s1 else s1
  | none => s1

/-- Embedding of add_set (app.py lines 257-341). Validation order follows the
source: active session, set type, exercise id presence and parse, exercise
lookup, reps parse and range, then weight parse and range (the weight branch
runs only when the raw field is truthy, so an absent or empty weight is
stored as NULL). -/
def addSet (u now : Nat) (exerciseIdF repsF : FormInt) (weightF : FormRat)
    (setTypeF : Option String) (s : Store) : Except AddSetError Store :=
  match findOpen u s with
  | none => .error .noActiveSession
  | some active =>
    let setType := setTypeF.getD "working"
    if !(setType == "working" || setType == "warmup") then .error .invalidSetType
    else
      match exerciseIdF with
      | .missing => .error .missingExercise
      | .bad => .error .invalidExercise
      | .val i =>
        match findExercise i s with
        | none => .error .exerciseNotFound
        | some ex =>
          match repsF with
          | .missing => .error .invalidReps
          | .bad => .error .invalidReps
          | .val r =>
            if r < 1 ∨ 1000 < r then .error .repsOutOfRange
            else
              match weightF with
              | .bad => .error .invalidWeight
              | .val w =>
                if w < 0 ∨ 10000 < w then .error .weightOutOfRange
                else .ok (insertSetAndPR u now active ex r (some w) setType s)
              | .missing => .ok (insertSetAndPR u now active ex r none setType s)

/-- Rejection reasons of add_exercise (app.py lines 519-549). -/
inductive AddExerciseError where
  | nameTooShort : AddExerciseError
  | duplicate : AddExerciseError
  deriving Repr, DecidableEq

/-- Name normalization applied by add_exercise: strip then title-case. -/
def normalizeName (name : PyStr) : PyStr := pyTitle (pyStrip name)

/-- Embedding of add_exercise (app.py lines 519-549). -/
def add_exercise (nameIn descriptionIn typeIn : PyStr) (s : Store) :
    Except AddExerciseError Store :=
  let name0 := pyStrip nameIn
  let description := pyStrip descriptionIn
  let exType := pyStrip typeIn
  if name0.length < 2 then .error .nameTooShort
  else
    let name := pyTitle name0
    match s.exercises.find? (fun e => e.name == name) with
    | some _ => .error .duplicate
    | none =>
      .ok { s with
        exercises := s.exercises ++
          [{ eid := s.nextExerciseId, name := name,
             description := if description.isEmpty then none else some description,
             exerciseType := if exType.isEmpty then none else some exType,
             isBodyweight := false, isCardio := false }],
        nextExerciseId := s.nextExerciseId + 1 }

/-- Rejection reasons of delete_exercise (app.py lines 551-575): the exercise
is absent, or some store-level step raised and the transaction was rolled
back. -/
inductive DeleteExerciseError where
  | notFound : DeleteExerciseError
  | storeFailure : DeleteExerciseError
  deriving Repr, DecidableEq

/-- Embedding of delete_exercise (app.py lines 551-575). The storeFails flag
models an exception in any of the three delete steps or the commit; the
source wraps them all in one try block whose handler rolls the session back,
so on failure the store is unchanged and on success all three deletions are
applied together. -/
def delete_exercise (exerciseId : Nat) (storeFails : Bool) (s : Store) :
    Except DeleteExerciseError Store :=
  match s.exercises.find? (fun e => e.eid == exerciseId) with
  | none => .error .notFound
  | some ex =>
    if storeFails then .error .storeFailure
    else
      .ok { s with
        prs := s.prs.filter (fun p => !(p.exerciseId == ex.eid)),
        logs := s.logs.filter (fun l => !(l.exerciseId == ex.eid)),
        exercises := s.exercises.filter (fun e => !(e.eid == ex.eid)) }

/-- Rejection reasons of add_weight_log (app.py lines 406-474), one per
flashed error message, in source order. -/
inductive WeightLogError where
  | invalidDate : WeightLogError
  | invalidWeight : WeightLogError
  | weightOutOfRange : WeightLogError
  | invalidBodyFat : WeightLogError
  | bodyFatOutOfRange : WeightLogError
  | invalidVisceralFat : WeightLogError
  | visceralFatOutOfRange : WeightLogError
  deriving Repr, DecidableEq

/-- Timestamp used for a measurement: the parsed date field when present,
the current time otherwise. -/
def dateOrNow (dateF : FormNat) (now : Nat) : Nat :=
  match dateF with
  | .val d => d
  | _ => now

/-- Validation of an optional percentage field of add_weight_log: absent
fields pass through as NULL, unparsable ones fail, present values must lie in
[0, 100]. -/
def checkOptField (f : FormRat) (badErr rangeErr : WeightLogError) :
    Except WeightLogError (Option ℚ) :=
  match f with
  | .missing => .ok none
  | .bad => .error badErr
  | .val x => if x < 0 ∨ 100 < x then .error rangeErr else .ok (some x)

/-- Body of add_weight_log after the date has been resolved: the mandatory
weight (float of a missing field raises) must lie in (0, 500], then body fat
and visceral fat are validated, then the row is inserted. -/
def add_weight_log_checked (u : Nat) (weightF bodyFatF visceralFatF : FormRat)
    (notes : PyStr) (loggedAt : Nat) (s : Store) : Except WeightLogError Store :=
  match weightF with
  | .missing => .error .invalidWeight
  | .bad => .error .invalidWeight
  | .val w =>
    if w ≤ 0 ∨ 500 < w then .error .weightOutOfRange
    else
      match checkOptField bodyFatF .invalidBodyFat .bodyFatOutOfRange with
      | .error e => .error e
      | .ok bf =>
        match checkOptField visceralFatF .invalidVisceralFat .visceralFatOutOfRange with
        | .error e => .error e
        | .ok vf =>
          .ok { s with weightLogs := s.weightLogs ++
            [{ userId := u, weight := w, bodyFatPercentage := bf,
               visceralFat := vf,
               notes := if (pyStrip notes).isEmpty then none else some (pyStrip notes),
               loggedAt := loggedAt }] }

/-- Embedding of add_weight_log (app.py lines 406-474). The source validates
the date, then weight, body fat and visceral fat in order, and only then
inserts; rejection at any step returns before the insert. -/
def add_weight_log (u now : Nat) (weightF bodyFatF visceralFatF : FormRat)
    (notes : PyStr) (dateF : FormNat) (s : Store) : Except WeightLogError Store :=
  match dateF with
  | .bad => .error .invalidDate
  | _ => add_weight_log_checked u weightF bodyFatF visceralFatF notes (dateOrNow dateF now) s

/-- Embedding of add_bloodwork (app.py lines 601-650). Every float() call and
the date parse happen inside one try block whose handlers roll back and flash
a single message, so any unparsable present field rejects the whole
submission; present fields are not range-checked. -/
def add_bloodwork (u now : Nat) (dateF : FormNat)
    (t1 t2 sh oe pr hb gl ins ho : FormRat) (notes : PyStr) (s : Store) :
    Except Unit Store :=
  if dateF.isBad || t1.isBad || t2.isBad || sh.isBad || oe.isBad || pr.isBad ||
     hb.isBad || gl.isBad || ins.isBad || ho.isBad then .error ()
  else
    .ok { s with bloodworks := s.bloodworks ++
      [{ userId := u,
         testDate := dateOrNow dateF now,
         testosteroneTotal := t1.toOption, testosteroneFree := t2.toOption,
         shbg := sh.toOption, oestradiol := oe.toOption, prolactin := pr.toOption,
         hba1c := hb.toOption, glucoseFasting := gl.toOption,
         insulinFasting := ins.toOption, homaIndex := ho.toOption,
         notes := notes, createdAt := now }] }

/-- Bloodwork fields carrying a clinical reference range (models.py,
BloodworkLog.REFERENCE_RANGES). -/
inductive BWField where
  | testosteroneTotal : BWField
  | testosteroneFree : BWField
  | shbg : BWField
  | oestradiol : BWField
  | prolactin : BWField
  | hba1c : BWField
  | glucoseFasting : BWField
  | insulinFasting : BWField
  | homaIndex : BWField
  deriving Repr, DecidableEq

/-- Reference range minimum per field (models.py lines 100-110). -/
def refMin : BWField → ℚ
  | .testosteroneTotal => 288
  | .testosteroneFree => 65
  | .shbg => 18
  | .oestradiol => 11
  | .prolactin => 4
  | .hba1c => 4
  | .glucoseFasting => 70
  | .insulinFasting => 2
  | .homaIndex => 0

/-- Reference range maximum per field (models.py lines 100-110). -/
def refMax : BWField → ℚ
  | .testosteroneTotal => 1008
  | .testosteroneFree => 209
  | .shbg => 54
  | .oestradiol => 44
  | .prolactin => 153/10
  | .hba1c => 28/5
  | .glucoseFasting => 99
  | .insulinFasting => 25
  | .homaIndex => 2

/-- Value of a bloodwork field on a row (the getattr in models.py). -/
def BloodworkRow.getValue (row : BloodworkRow) : BWField → Option ℚ
  | .testosteroneTotal => row.testosteroneTotal
  | .testosteroneFree => row.testosteroneFree
  | .shbg => row.shbg
  | .oestradiol => row.oestradiol
  | .prolactin => row.prolactin
  | .hba1c => row.hba1c
  | .glucoseFasting => row.glucoseFasting
  | .insulinFasting => row.insulinFasting
  | .homaIndex => row.homaIndex

/-- Embedding of BloodworkLog.get_status (models.py lines 112-127). -/
def BloodworkRow.get_status (row : BloodworkRow) (f : BWField) : Option String :=
  match row.getValue f with
  | none => none
  | some v =>
    if v < refMin f then some "low"
    else if refMax f < v then some "high"
    else some "normal"

/-- Floor of a rational, written so that the kernel can evaluate it. -/
def ratFloor (q : ℚ) : ℤ := q.num / q.den

/-- Round to the nearest integer, ties to even: the rounding Python round()
uses (modulo binary float representation, which the exact-rational model
abstracts away). -/
def roundHalfEven (q : ℚ) : ℤ :=
  let f : ℤ := ratFloor q
  let r : ℚ := q - (f : ℚ)
  if r < 1/2 then f
  else if 1/2 < r then f + 1
  else if f % 2 = 0 then f else f + 1

/-- Embedding of Python round(x, 1). -/
def pyRound1 (q : ℚ) : ℚ := ((roundHalfEven (q * 10) : ℤ) : ℚ) / 10

/-- Embedding of BloodworkLog.get_percentage_of_range (models.py lines
129-143). -/
def BloodworkRow.get_percentage_of_range (row : BloodworkRow) (f : BWField) : Option ℚ :=
  match row.getValue f with
  | none => none
  | some v =>
    some (pyRound1 ((v - refMin f) / (refMax f - refMin f) * 100))

/-- One add_set attempt that keeps the old store on rejection (the caller is
redirected and the store is untouched). -/
def addSetOrKeep (u now : Nat) (ef rf : FormInt) (wf : FormRat)
    (stF : Option String) (s : Store) : Store :=
  match addSet u now ef rf wf stF s with
  | .ok s1 => s1
  | .error _ => s

/-- N consecutive add_set attempts with the same arguments. -/
def iterAddSet (u now : Nat) (ef rf : FormInt) (wf : FormRat)
    (stF : Option String) : Nat → Store → Store
  | 0, s => s
  | n + 1, s => iterAddSet u now ef rf wf stF n (addSetOrKeep u now ef rf wf stF s)

/-- Link between the executable floor and the Mathlib floor. -/
lemma ratFloor_eq (q : ℚ) : ratFloor q = ⌊q⌋ := by
  rw [Rat.floor_def]; rfl

/-- Computation rule for roundHalfEven once the floor is known. -/
lemma roundHalfEven_of_floor (q : ℚ) (z : ℤ) (hz : ⌊q⌋ = z) :
    roundHalfEven q =
      if q - (z : ℚ) < 1/2 then z
      else if 1/2 < q - (z : ℚ) then z + 1
      else if z % 2 = 0 then z else z + 1 := by
  unfold roundHalfEven
  rw [ratFloor_eq, hz]

/-- No open session is found exactly when the open-session count is zero. -/
lemma findOpen_eq_none_iff (u : Nat) (s : Store) :
    findOpen u s = none ↔ openCount u s = 0 := by
  unfold findOpen openCount
  rw [List.find?_eq_none, List.countP_eq_zero]

/-- Finding an open session means the open-session count is positive. -/
lemma openCount_pos_of_some (u : Nat) (s : Store) (r : SessionRow)
    (h : findOpen u s = some r) : 0 < openCount u s := by
  unfold findOpen at h
  unfold openCount
  exact List.countP_pos_iff.mpr ⟨r, List.mem_of_find?_eq_some h, List.find?_some h⟩

/-- Sessions are untouched by update_pr. -/
lemma update_pr_sessions (u e : Nat) (w : ℚ) (r : Int) (now : Nat) (s : Store) :
    (update_pr u e w r now s).sessions = s.sessions := rfl

/-- Component-wise description of insertSetAndPR: only logs, nextLogId and
possibly prs change, the latter by a single upsert. -/
lemma insertSetAndPR_parts (u now : Nat) (a : SessionRow) (ex : ExerciseRow)
    (r : Int) (wf : Option ℚ) (st : String) (s : Store) :
    (insertSetAndPR u now a ex r wf st s).sessions = s.sessions ∧
    (insertSetAndPR u now a ex r wf st s).exercises = s.exercises ∧
    (insertSetAndPR u now a ex r wf st s).weightLogs = s.weightLogs ∧
    (insertSetAndPR u now a ex r wf st s).bloodworks = s.bloodworks ∧
    (insertSetAndPR u now a ex r wf st s).logs = s.logs ++
      [{ lid := s.nextLogId, sessionId := a.sid, exerciseId := ex.eid,
         setNumber := maxSetNumber a.sid ex.eid s.logs + 1, reps := some r,
         weight := wf, calories := none, timeMinutes := none, setType := st,
         createdAt := now }] ∧
    ((insertSetAndPR u now a ex r wf st s).prs = s.prs ∨
      ∃ w2, wf = some w2 ∧
        (insertSetAndPR u now a ex r wf st s).prs = upsertPR u ex.eid w2 r now s.prs) := by
  unfold insertSetAndPR
  cases wf with
  | none => exact ⟨rfl, rfl, rfl, rfl, rfl, Or.inl rfl⟩
  | some w =>
    dsimp only
    split
    · exact ⟨rfl, rfl, rfl, rfl, rfl, Or.inr ⟨w, rfl, rfl⟩⟩
    · exact ⟨rfl, rfl, rfl, rfl, rfl, Or.inl rfl⟩

/-- Every successful addSet factors through insertSetAndPR on the found open
session and exercise, with validated reps and weight. -/
lemma addSet_ok_shape (u now : Nat) (ef rf : FormInt) (wf : FormRat)
    (stF : Option String) (s s' : Store)
    (h : addSet u now ef rf wf stF s = .ok s') :
    ∃ a ex r wopt, findOpen u s = some a ∧
      (∃ i, ef = .val i ∧ findExercise i s = some ex) ∧
      rf = .val r ∧ 1 ≤ r ∧ r ≤ 1000 ∧
      (wf = .missing ∧ wopt = none ∨ ∃ w, wf = .val w ∧ wopt = some w ∧ 0 ≤ w ∧ w ≤ 10000) ∧
      s' = insertSetAndPR u now a ex r wopt (stF.getD "working") s := by
  unfold addSet at h
  cases hfo : findOpen u s with
  | none => rw [hfo] at h; exact Except.noConfusion h
  | some a =>
    rw [hfo] at h
    dsimp only at h
    split at h
    · exact Except.noConfusion h
    · cases ef with
      | missing => exact Except.noConfusion h
      | bad => exact Except.noConfusion h
      | val i =>
        dsimp only at h
        cases hex : findExercise i s with
        | none => rw [hex] at h; exact Except.noConfusion h
        | some ex =>
          rw [hex] at h
          cases rf with
          | missing => exact Except.noConfusion h
          | bad => exact Except.noConfusion h
          | val r =>
            dsimp only at h
            split at h
            · exact Except.noConfusion h
            · rename_i hr
              push_neg at hr
              cases wf with
              | bad => exact Except.noConfusion h
              | missing =>
                refine ⟨a, ex, r, none, rfl, ⟨i, rfl, hex⟩, rfl, hr.1, hr.2, Or.inl ⟨rfl, rfl⟩, ?_⟩
                injection h with h2
                exact h2.symm
              | val w =>
                dsimp only at h
                split at h
                · exact Except.noConfusion h
                · rename_i hw
                  push_neg at hw
                  refine ⟨a, ex, r, some w, rfl, ⟨i, rfl, hex⟩, rfl, hr.1, hr.2,
                    Or.inr ⟨w, rfl, rfl, hw.1, hw.2⟩, ?_⟩
                  injection h with h2
                  exact h2.symm

/-- When an open session exists, start_workout does nothing. -/
lemma startWorkout_of_some (u now : Nat) (s : Store) (r : SessionRow)
    (h : findOpen u s = some r) : startWorkout u now s = s := by
  unfold startWorkout; rw [h]

/-- Open-session counts depend only on the sessions table. -/
lemma openCount_congr (v : Nat) (s1 s2 : Store) (h : s1.sessions = s2.sessions) :
    openCount v s1 = openCount v s2 := by
  unfold openCount; rw [h]

/-- A successful addSet leaves the sessions table unchanged. -/
lemma addSet_ok_sessions (u now : Nat) (ef rf : FormInt) (wf : FormRat)
    (stF : Option String) (s s' : Store)
    (h : addSet u now ef rf wf stF s = .ok s') : s'.sessions = s.sessions := by
  obtain ⟨a, ex, r, wopt, -, -, -, -, -, -, hs⟩ := addSet_ok_shape u now ef rf wf stF s s' h
  rw [hs]
  exact (insertSetAndPR_parts u now a ex r wopt (stF.getD "working") s).1

/-- C1: for every user at most one open WorkoutSession exists at any time, and
start_workout is idempotent: with an open session present it is a no-op,
otherwise it creates one; after it returns the user has exactly one open
session, and finish_workout, cancel_workout and add_set all preserve the
at-most-one-open-session invariant (sequential semantics; the spec itself
documents the concurrent race as out of scope). -/
theorem C1_open_session_invariant (u now : Nat) (s : Store)
    (hinv : ∀ v, openCount v s ≤ 1) :
    ((findOpen u s).isSome → startWorkout u now s = s) ∧
    openCount u (startWorkout u now s) = 1 ∧
    (∀ v, openCount v (startWorkout u now s) ≤ 1) ∧
    (∀ w now2 v, openCount v (finishWorkout w now2 s) ≤ 1) ∧
    (∀ w v, openCount v (cancelWorkout w s) ≤ 1) ∧
    (∀ w now2 ef rf wfF stF s', addSet w now2 ef rf wfF stF s = .ok s' →
      ∀ v, openCount v s' ≤ 1) := by
  have hone : openCount u (startWorkout u now s) = 1 := by
    cases hfo : findOpen u s with
    | some r =>
      rw [startWorkout_of_some u now s r hfo]
      have h1 := openCount_pos_of_some u s r hfo
      have h2 := hinv u
      omega
    | none =>
      have h0 : openCount u s = 0 := (findOpen_eq_none_iff u s).mp hfo
      unfold startWorkout
      rw [hfo]
      unfold openCount at h0 ⊢
      dsimp only
      rw [List.countP_append, h0]
      simp [isOpenFor]
  refine ⟨?_, hone, ?_, ?_, ?_, ?_⟩
  · intro hs
    cases hfo : findOpen u s with
    | none => rw [hfo] at hs; exact absurd hs (by simp)
    | some r => exact startWorkout_of_some u now s r hfo
  · intro v
    by_cases hv : v = u
    · rw [hv, hone]
    · cases hfo : findOpen u s with
      | some r => rw [startWorkout_of_some u now s r hfo]; exact hinv v
      | none =>
        unfold startWorkout
        rw [hfo]
        unfold openCount
        dsimp only
        rw [List.countP_append]
        have hnew : isOpenFor v
            { sid := s.nextSessionId, userId := u, startTime := now,
              endTime := none, durationMinutes := none, createdAt := now } = false := by
          unfold isOpenFor
          simp [Ne.symm hv]
        have := hinv v
        unfold openCount at this
        simp [hnew]
        omega
  · intro w now2 v
    unfold finishWorkout
    cases hfo : findOpen w s with
    | none => exact hinv v
    | some a =>
      refine le_trans ?_ (hinv v)
      unfold openCount
      dsimp only
      rw [List.countP_map]
      apply List.countP_mono_left
      intro r hr hpr
      simp only [Function.comp] at hpr
      by_cases hsid : (r.sid == a.sid) = true
      · exfalso
        rw [if_pos hsid] at hpr
        unfold isOpenFor at hpr
        simp at hpr
      · rw [if_neg hsid] at hpr
        exact hpr
  · intro w v
    unfold cancelWorkout
    cases hfo : findOpen w s with
    | none => exact hinv v
    | some a =>
      refine le_trans ?_ (hinv v)
      unfold openCount
      dsimp only
      exact (List.filter_sublist _).countP_le _
  · intro w now2 ef rf wfF stF s' h v
    rw [openCount_congr v s' s (addSet_ok_sessions w now2 ef rf wfF stF s s' h)]
    exact hinv v

/-- Witness for C1 at a concrete store: the empty store satisfies the
invariant, starting a session yields exactly one open session, and starting
again is a no-op. -/
theorem C1_open_session_invariant_witness :
    openCount 7 (startWorkout 7 100 emptyStore) = 1 ∧
    startWorkout 7 200 (startWorkout 7 100 emptyStore) = startWorkout 7 100 emptyStore := by
  have h0 : ∀ v, openCount v emptyStore ≤ 1 := by
    intro v
    simp [openCount, emptyStore]
  have h1 := C1_open_session_invariant 7 100 emptyStore h0
  have h2 := C1_open_session_invariant 7 200 (startWorkout 7 100 emptyStore) (h1.2.2.1)
  exact ⟨h1.2.1, h2.1 (by decide)⟩

/-- Pointwise-equal predicates find the same first element. -/
lemma find?_ext {α : Type} (p q : α → Bool) (l : List α) (h : ∀ a, p a = q a) :
    l.find? p = l.find? q := by
  induction l with
  | nil => rfl
  | cons a l ih =>
    rw [List.find?_cons, List.find?_cons, h a]
    cases q a with
    | true => rfl
    | false => exact ih

/-- Overwriting the weight, reps and timestamp of a record does not change
which (user, exercise) pair it belongs to. -/
lemma prKey_overwrite (u e : Nat) (w : ℚ) (r : Int) (now : Nat) (x : PRRow) :
    prKey u e (if prKey u e x then { x with weight := w, reps := r, achievedAt := now } else x) =
      prKey u e x := by
  by_cases hx : prKey u e x = true
  · rw [if_pos hx]
    unfold prKey at hx ⊢
    exact hx.trans hx.symm
  · rw [if_neg hx]

/-- C2: the PR tracker inserts a fresh record when none exists for the
(user, exercise) pair, overwrites weight, reps and the achieved timestamp
when the new weight strictly exceeds the stored weight, and otherwise (new
weight equal to or below the stored one) leaves the whole store, hence the
stored weight, reps and timestamp, completely unchanged regardless of the
new rep count. -/
theorem C2_pr_tracker_update (u e : Nat) (w : ℚ) (r : Int) (now : Nat) (s : Store) :
    (s.prs.find? (prKey u e) = none →
      update_pr u e w r now s =
        { s with prs := s.prs ++
            [{ userId := u, exerciseId := e, weight := w, reps := r, achievedAt := now }] }) ∧
    (∀ pr, s.prs.find? (prKey u e) = some pr → pr.weight < w →
      (update_pr u e w r now s).prs.find? (prKey u e) =
        some { pr with weight := w, reps := r, achievedAt := now } ∧
      (∀ p ∈ s.prs, prKey u e p = false → p ∈ (update_pr u e w r now s).prs) ∧
      (update_pr u e w r now s).sessions = s.sessions ∧
      (update_pr u e w r now s).logs = s.logs ∧
      (update_pr u e w r now s).exercises = s.exercises) ∧
    (∀ pr, s.prs.find? (prKey u e) = some pr → w ≤ pr.weight →
      update_pr u e w r now s = s) := by
  refine ⟨?_, ?_, ?_⟩
  · intro h
    unfold update_pr upsertPR
    rw [h]
  · intro pr h hlt
    have hkey : prKey u e pr = true := List.find?_some h
    unfold update_pr upsertPR
    rw [h]
    dsimp only
    rw [if_pos hlt]
    refine ⟨?_, ?_, rfl, rfl, rfl⟩
    · rw [List.find?_map]
      simp only [Function.comp_def]
      rw [find?_ext _ (prKey u e) s.prs (fun x => prKey_overwrite u e w r now x), h]
      dsimp only [Option.map]
      rw [if_pos hkey]
    · intro p hp hpf
      refine List.mem_map.mpr ⟨p, hp, ?_⟩
      rw [if_neg ?_]
      rw [hpf]
      exact Bool.false_ne_true
  · intro pr h hle
    unfold update_pr upsertPR
    rw [h]
    dsimp only
    rw [if_neg (not_lt.mpr hle)]

/-- Witness for C2: inserting a first record into the empty store, and an
equal-weight attempt leaving an existing 100 kg record untouched even with a
higher rep count. -/
theorem C2_pr_tracker_update_witness :
    update_pr 1 2 100 8 5 emptyStore =
      { emptyStore with prs := [{ userId := 1, exerciseId := 2, weight := 100, reps := 8,
                                  achievedAt := 5 }] } ∧
    update_pr 1 2 100 99 77
        { emptyStore with prs := [{ userId := 1, exerciseId := 2, weight := 100, reps := 8,
                                    achievedAt := 5 }] } =
      { emptyStore with prs := [{ userId := 1, exerciseId := 2, weight := 100, reps := 8,
                                  achievedAt := 5 }] } := by
  constructor
  · exact (C2_pr_tracker_update 1 2 100 8 5 emptyStore).1 (by decide)
  · exact (C2_pr_tracker_update 1 2 100 99 77 _).2.2
      { userId := 1, exerciseId := 2, weight := 100, reps := 8, achievedAt := 5 }
      (by decide) (by decide)

/-- Store used to exercise the session-lifecycle theorems on concrete data:
one open session of user 3 holding one logged set, plus an unrelated PR. -/
def lifecycleStore : Store :=
  { emptyStore with
    sessions := [{ sid := 1, userId := 3, startTime := 30, endTime := none,
                   durationMinutes := none, createdAt := 30 }],
    logs := [{ lid := 1, sessionId := 1, exerciseId := 9, setNumber := 1,
               reps := some 5, weight := some 80, calories := none,
               timeMinutes := none, setType := "working", createdAt := 31 }],
    prs := [{ userId := 3, exerciseId := 9, weight := 80, reps := 5, achievedAt := 31 }] }

/-- C5: with an open session, cancel_workout deletes exactly that session and
the sets belonging to it, leaving other sessions, sets, PRs, exercises and
measurements untouched; finish_workout keeps every set and only closes the
session, stamping end_time = now and duration_minutes = floor of the elapsed
seconds divided by 60, a non-negative integer; both are no-ops without an
open session. -/
theorem C5_finish_cancel (u now : Nat) (s : Store) :
    (findOpen u s = none → finishWorkout u now s = s ∧ cancelWorkout u s = s) ∧
    (∀ active, findOpen u s = some active →
      (cancelWorkout u s).sessions = s.sessions.filter (fun r => !(r.sid == active.sid)) ∧
      (cancelWorkout u s).logs = s.logs.filter (fun l => !(l.sessionId == active.sid)) ∧
      (cancelWorkout u s).prs = s.prs ∧
      (cancelWorkout u s).exercises = s.exercises ∧
      (cancelWorkout u s).weightLogs = s.weightLogs ∧
      (cancelWorkout u s).bloodworks = s.bloodworks ∧
      (finishWorkout u now s).logs = s.logs ∧
      (finishWorkout u now s).prs = s.prs ∧
      (finishWorkout u now s).weightLogs = s.weightLogs ∧
      (finishWorkout u now s).bloodworks = s.bloodworks ∧
      (finishWorkout u now s).exercises = s.exercises ∧
      (finishWorkout u now s).sessions = s.sessions.map (fun r =>
        if r.sid == active.sid then
          { r with endTime := some now,
                   durationMinutes := some (((now : Int) - (r.startTime : Int)).tdiv 60) }
        else r) ∧
      ({ active with
          endTime := some now,
          durationMinutes := some (((now : Int) - (active.startTime : Int)).tdiv 60) } ∈
            (finishWorkout u now s).sessions) ∧
      (active.startTime ≤ now →
        ((now : Int) - (active.startTime : Int)).tdiv 60 =
          (((now - active.startTime) / 60 : Nat) : Int) ∧
        0 ≤ ((now : Int) - (active.startTime : Int)).tdiv 60)) := by
  constructor
  · intro h
    constructor
    · unfold finishWorkout; rw [h]
    · unfold cancelWorkout; rw [h]
  · intro active h
    have hfin : (finishWorkout u now s).sessions = s.sessions.map (fun r =>
        if r.sid == active.sid then
          { r with endTime := some now,
                   durationMinutes := some (((now : Int) - (r.startTime : Int)).tdiv 60) }
        else r) := by
      unfold finishWorkout; rw [h]
    have hcancel1 : (cancelWorkout u s).sessions =
        s.sessions.filter (fun r => !(r.sid == active.sid)) := by
      unfold cancelWorkout; rw [h]
    have hcancel2 : (cancelWorkout u s).logs =
        s.logs.filter (fun l => !(l.sessionId == active.sid)) := by
      unfold cancelWorkout; rw [h]
    have hcprs : (cancelWorkout u s).prs = s.prs := by
      unfold cancelWorkout; rw [h]
    have hcex : (cancelWorkout u s).exercises = s.exercises := by
      unfold cancelWorkout; rw [h]
    have hcwl : (cancelWorkout u s).weightLogs = s.weightLogs := by
      unfold cancelWorkout; rw [h]
    have hcbw : (cancelWorkout u s).bloodworks = s.bloodworks := by
      unfold cancelWorkout; rw [h]
    have hflogs : (finishWorkout u now s).logs = s.logs := by
      unfold finishWorkout; rw [h]
    have hfprs : (finishWorkout u now s).prs = s.prs := by
      unfold finishWorkout; rw [h]
    have hfwl : (finishWorkout u now s).weightLogs = s.weightLogs := by
      unfold finishWorkout; rw [h]
    have hfbw : (finishWorkout u now s).bloodworks = s.bloodworks := by
      unfold finishWorkout; rw [h]
    have hfex : (finishWorkout u now s).exercises = s.exercises := by
      unfold finishWorkout; rw [h]
    refine ⟨hcancel1, hcancel2, hcprs, hcex, hcwl, hcbw, hflogs, hfprs, hfwl, hfbw, hfex,
      hfin, ?_, ?_⟩
    · rw [hfin]
      refine List.mem_map.mpr ⟨active, List.mem_of_find?_eq_some h, ?_⟩
      rw [if_pos (by simp)]
    · intro htime
      have hcast : (now : Int) - (active.startTime : Int) =
          ((now - active.startTime : Nat) : Int) := by omega
      rw [hcast]
      have hdiv : ((now - active.startTime : Nat) : Int).tdiv 60 =
          (((now - active.startTime) / 60 : Nat) : Int) := rfl
      rw [hdiv]
      exact ⟨rfl, Int.natCast_nonneg _⟩

/-- Witness for C5: finishing the concrete open session stamps a duration of
2 minutes after 120 elapsed seconds and keeps its set, while cancelling it
removes the set but keeps the PR row. -/
theorem C5_finish_cancel_witness :
    (finishWorkout 3 150 lifecycleStore).logs = lifecycleStore.logs ∧
    { sid := 1, userId := 3, startTime := 30, endTime := some 150,
      durationMinutes := some 2, createdAt := 30 } ∈
        (finishWorkout 3 150 lifecycleStore).sessions ∧
    (cancelWorkout 3 lifecycleStore).logs = [] ∧
    (cancelWorkout 3 lifecycleStore).prs = lifecycleStore.prs := by
  have hfind : findOpen 3 lifecycleStore =
      some { sid := 1, userId := 3, startTime := 30, endTime := none,
             durationMinutes := none, createdAt := 30 } := by decide
  obtain ⟨h1, h2, h3, -, -, -, h7, -, -, -, -, -, hmem, -⟩ :=
    (C5_finish_cancel 3 150 lifecycleStore).2 _ hfind
  refine ⟨h7, ?_, ?_, h3⟩
  · have : (((150 : Nat) : Int) - ((30 : Nat) : Int)).tdiv 60 = 2 := by decide
    rw [this] at hmem
    exact hmem
  · rw [h2]
    decide

/-- C6: delete_exercise rejects with NotFound when no exercise has the given
id; otherwise, in one transaction, it deletes every set and every personal
record referencing that exercise for all users together with the exercise
itself and nothing else, and when any store step fails the whole deletion is
rolled back (the embedding returns an error and the store is unchanged). -/
theorem C6_delete_exercise (exerciseId : Nat) (storeFails : Bool) (s : Store) :
    (s.exercises.find? (fun e => e.eid == exerciseId) = none →
      delete_exercise exerciseId storeFails s = .error .notFound) ∧
    (∀ ex, s.exercises.find? (fun e => e.eid == exerciseId) = some ex →
      storeFails = true →
      delete_exercise exerciseId storeFails s = .error .storeFailure) ∧
    (∀ ex, s.exercises.find? (fun e => e.eid == exerciseId) = some ex →
      storeFails = false →
      delete_exercise exerciseId storeFails s = .ok
        { s with
          prs := s.prs.filter (fun p => !(p.exerciseId == exerciseId)),
          logs := s.logs.filter (fun l => !(l.exerciseId == exerciseId)),
          exercises := s.exercises.filter (fun e => !(e.eid == exerciseId)) }) := by
  refine ⟨?_, ?_, ?_⟩
  · intro h
    unfold delete_exercise
    rw [h]
  · intro ex h hf
    unfold delete_exercise
    rw [h, hf]
    rfl
  · intro ex h hf
    have heid : ex.eid = exerciseId := by
      have := List.find?_some h
      simpa using this
    unfold delete_exercise
    rw [h, hf]
    dsimp only
    rw [heid]
    rw [if_neg (by simp)]

/-- Store used to exercise exercise-catalog deletion: one exercise referenced
by sets and records of two different users. -/
def catalogStore : Store :=
  { emptyStore with
    exercises := [{ eid := 9, name := [66], description := none,
                    exerciseType := none, isBodyweight := false, isCardio := false }],
    logs := [{ lid := 1, sessionId := 1, exerciseId := 9, setNumber := 1,
               reps := some 5, weight := some 80, calories := none,
               timeMinutes := none, setType := "working", createdAt := 31 }],
    prs := [{ userId := 3, exerciseId := 9, weight := 80, reps := 5, achievedAt := 31 },
            { userId := 4, exerciseId := 9, weight := 60, reps := 5, achievedAt := 40 }] }

/-- Witness for C6: deleting a missing exercise fails, a failing transaction
changes nothing, and a successful deletion removes the exercise with the sets
and records of every user referencing it. -/
theorem C6_delete_exercise_witness :
    delete_exercise 5 false catalogStore = .error .notFound ∧
    delete_exercise 9 true catalogStore = .error .storeFailure ∧
    delete_exercise 9 false catalogStore =
      .ok { catalogStore with prs := [], logs := [], exercises := [] } := by
  refine ⟨(C6_delete_exercise 5 false catalogStore).1 (by decide), ?_, ?_⟩
  · exact (C6_delete_exercise 9 true catalogStore).2.1
      { eid := 9, name := [66], description := none, exerciseType := none,
        isBodyweight := false, isCardio := false } (by decide) rfl
  · have h := (C6_delete_exercise 9 false catalogStore).2.2
      { eid := 9, name := [66], description := none, exerciseType := none,
        isBodyweight := false, isCardio := false } (by decide) rfl
    rw [h]
    exact congrArg Except.ok (by decide)

/-- Folding max over a list with one element appended. -/
lemma foldr_max_append (l : List Nat) (a : Nat) :
    (l ++ [a]).foldr max 0 = max (l.foldr max 0) a := by
  induction l with
  | nil => simp [List.foldr]
  | cons b l ih =>
    simp only [List.cons_append, List.foldr_cons, ih]
    omega

/-- The largest element of 1..k is k. -/
lemma foldr_max_range (k : Nat) : (List.range' 1 k).foldr max 0 = k := by
  induction k with
  | zero => rfl
  | succ n ih =>
    rw [List.range'_concat, foldr_max_append, ih]
    omega

/-- The open-session lookup depends only on the sessions table. -/
lemma findOpen_congr (u : Nat) (s1 s2 : Store) (h : s1.sessions = s2.sessions) :
    findOpen u s1 = findOpen u s2 := by
  unfold findOpen; rw [h]

/-- The exercise lookup depends only on the exercises table. -/
lemma findExercise_congr (i : Int) (s1 s2 : Store) (h : s1.exercises = s2.exercises) :
    findExercise i s1 = findExercise i s2 := by
  unfold findExercise; rw [h]

/-- The set numbers the freshly inserted row joins: one appended entry holding
the previous maximum plus one. -/
lemma setNumbersFor_insertSetAndPR (u now : Nat) (a : SessionRow) (ex : ExerciseRow)
    (r : Int) (wopt : Option ℚ) (st : String) (s : Store) :
    setNumbersFor a.sid ex.eid (insertSetAndPR u now a ex r wopt st s).logs =
      setNumbersFor a.sid ex.eid s.logs ++ [maxSetNumber a.sid ex.eid s.logs + 1] := by
  have hlogs := (insertSetAndPR_parts u now a ex r wopt st s).2.2.2.2.1
  unfold setNumbersFor
  rw [hlogs, List.filter_append, List.map_append]
  congr 1
  simp [List.filter]

/-- With an open session, a known exercise and validated reps, set type and
weight, addSet succeeds and produces exactly the insertSetAndPR store. -/
lemma addSet_succeeds (u now : Nat) (i r : Int) (wf : FormRat) (stF : Option String)
    (s : Store) (active : SessionRow) (ex : ExerciseRow)
    (hopen : findOpen u s = some active) (hex : findExercise i s = some ex)
    (hr : 1 ≤ r ∧ r ≤ 1000)
    (hw : wf = FormRat.missing ∨ ∃ q, wf = FormRat.val q ∧ 0 ≤ q ∧ q ≤ 10000)
    (hst : stF.getD "working" = "working" ∨ stF.getD "working" = "warmup") :
    ∃ wopt, addSet u now (.val i) (.val r) wf stF s =
      .ok (insertSetAndPR u now active ex r wopt (stF.getD "working") s) ∧
      (wf = FormRat.missing → wopt = none) ∧
      (∀ q, wf = FormRat.val q → wopt = some q) := by
  have hstb : (!(stF.getD "working" == "working" || stF.getD "working" == "warmup")) ≠ true := by
    cases hst with
    | inl h => simp [h]
    | inr h => simp [h]
  unfold addSet
  rw [hopen]
  dsimp only
  rw [if_neg hstb, hex]
  dsimp only
  rw [if_neg (by omega)]
  cases hw with
  | inl h =>
    subst h
    exact ⟨none, rfl, fun _ => rfl, fun q hq => FormRat.noConfusion hq⟩
  | inr h =>
    obtain ⟨q, rfl, hq0, hq1⟩ := h
    dsimp only
    rw [if_neg (by rw [not_or]; constructor <;> [exact not_lt.mpr hq0; exact not_lt.mpr hq1])]
    refine ⟨some q, rfl, fun hcon => FormRat.noConfusion hcon, fun q2 hq2 => ?_⟩
    injection hq2 with h2
    rw [h2]

/-- Iterating a valid addSet extends the 1..k prefix of set numbers one entry
per call. -/
lemma iterAddSet_range (u now : Nat) (i r : Int) (wf : FormRat) (stF : Option String)
    (active : SessionRow) (ex : ExerciseRow)
    (hr : 1 ≤ r ∧ r ≤ 1000)
    (hw : wf = FormRat.missing ∨ ∃ q, wf = FormRat.val q ∧ 0 ≤ q ∧ q ≤ 10000)
    (hst : stF.getD "working" = "working" ∨ stF.getD "working" = "warmup") :
    ∀ (n : Nat) (s : Store) (k : Nat),
      findOpen u s = some active → findExercise i s = some ex →
      setNumbersFor active.sid ex.eid s.logs = List.range' 1 k →
      setNumbersFor active.sid ex.eid
          (iterAddSet u now (.val i) (.val r) wf stF n s).logs = List.range' 1 (k + n) := by
  intro n
  induction n with
  | zero => intro s k _ _ hk; simpa [iterAddSet] using hk
  | succ m ih =>
    intro s k hopen hex hk
    obtain ⟨wopt, hok, -, -⟩ :=
      addSet_succeeds u now i r wf stF s active ex hopen hex hr hw hst
    have hkeep : addSetOrKeep u now (.val i) (.val r) wf stF s =
        insertSetAndPR u now active ex r wopt (stF.getD "working") s := by
      unfold addSetOrKeep
      rw [hok]
    have hparts := insertSetAndPR_parts u now active ex r wopt (stF.getD "working") s
    have hnums :
        setNumbersFor active.sid ex.eid
            (addSetOrKeep u now (.val i) (.val r) wf stF s).logs = List.range' 1 (k + 1) := by
      rw [hkeep, setNumbersFor_insertSetAndPR]
      unfold maxSetNumber
      have h11 : 1 + 1 * k = k + 1 := by omega
      rw [hk, foldr_max_range, List.range'_concat, h11]
    have hiter : iterAddSet u now (.val i) (.val r) wf stF (m + 1) s =
        iterAddSet u now (.val i) (.val r) wf stF m
          (addSetOrKeep u now (.val i) (.val r) wf stF s) := rfl
    rw [hiter]
    have hopen2 : findOpen u (addSetOrKeep u now (.val i) (.val r) wf stF s) = some active := by
      rw [findOpen_congr u _ s (by rw [hkeep]; exact hparts.1)]
      exact hopen
    have hex2 : findExercise i (addSetOrKeep u now (.val i) (.val r) wf stF s) = some ex := by
      rw [findExercise_congr i _ s (by rw [hkeep]; exact hparts.2.1)]
      exact hex
    rw [ih _ (k + 1) hopen2 hex2 hnums]
    congr 1
    omega

/-- C3: a newly logged set for an open session and exercise gets set number
equal to one plus the largest existing set number for that (session,
exercise) pair (so 1 when none exists), and logging N consecutive sets for
the same pair starting from none produces the numbers 1..N in insertion
order. -/
theorem C3_set_numbering (u now : Nat) (i r : Int) (wf : FormRat) (stF : Option String)
    (s : Store) (active : SessionRow) (ex : ExerciseRow)
    (hopen : findOpen u s = some active) (hex : findExercise i s = some ex)
    (hr : 1 ≤ r ∧ r ≤ 1000)
    (hw : wf = FormRat.missing ∨ ∃ q, wf = FormRat.val q ∧ 0 ≤ q ∧ q ≤ 10000)
    (hst : stF.getD "working" = "working" ∨ stF.getD "working" = "warmup") :
    (∀ s', addSet u now (.val i) (.val r) wf stF s = .ok s' →
      setNumbersFor active.sid ex.eid s'.logs =
        setNumbersFor active.sid ex.eid s.logs ++
          [maxSetNumber active.sid ex.eid s.logs + 1]) ∧
    (setNumbersFor active.sid ex.eid s.logs = [] →
      ∀ N, setNumbersFor active.sid ex.eid
          (iterAddSet u now (.val i) (.val r) wf stF N s).logs = List.range' 1 N) := by
  constructor
  · intro s' hok
    obtain ⟨wopt, hok2, -, -⟩ :=
      addSet_succeeds u now i r wf stF s active ex hopen hex hr hw hst
    rw [hok] at hok2
    injection hok2 with heq
    rw [heq]
    exact setNumbersFor_insertSetAndPR u now active ex r wopt (stF.getD "working") s
  · intro hempty N
    have := iterAddSet_range u now i r wf stF active ex hr hw hst N s 0 hopen hex
      (by simpa using hempty)
    simpa using this

/-- Store used for the numbering witness: user 3 has an open session and the
catalog holds exercise 9, with no sets logged yet. -/
def numberingStore : Store :=
  { emptyStore with
    sessions := [{ sid := 1, userId := 3, startTime := 30, endTime := none,
                   durationMinutes := none, createdAt := 30 }],
    exercises := [{ eid := 9, name := [66], description := none,
                    exerciseType := none, isBodyweight := false, isCardio := false }] }

/-- Witness for C3: two consecutive working sets of 10 reps at 100 kg logged
into a fresh session receive set numbers 1 and 2. -/
theorem C3_set_numbering_witness :
    setNumbersFor 1 9
        (iterAddSet 3 40 (.val 9) (.val 10) (.val 100) (some "working") 2 numberingStore).logs
      = [1, 2] := by
  have h := (C3_set_numbering 3 40 9 10 (.val 100) (some "working") numberingStore
      { sid := 1, userId := 3, startTime := 30, endTime := none,
        durationMinutes := none, createdAt := 30 }
      { eid := 9, name := [66], description := none, exerciseType := none,
        isBodyweight := false, isCardio := false }
      (by decide) (by decide) (by omega)
      (Or.inr ⟨100, rfl, by norm_num, by norm_num⟩) (Or.inl rfl)).2 (by decide) 2
  rw [h]
  decide

/-- PRs change under insertSetAndPR only when the set is a working set whose
weight is present and nonzero (the truthiness test of the source). -/
lemma insertSetAndPR_prs_changed (u now : Nat) (a : SessionRow) (ex : ExerciseRow)
    (r : Int) (wf : Option ℚ) (st : String) (s : Store)
    (h : (insertSetAndPR u now a ex r wf st s).prs ≠ s.prs) :
    ∃ w, wf = some w ∧ (st == "working" && !(w == 0)) = true := by
  unfold insertSetAndPR at h
  cases wf with
  | none => exact absurd rfl h
  | some w =>
    dsimp only at h
    revert h
    split
    · rename_i hcond
      intro h
      exact ⟨w, rfl, hcond⟩
    · intro h
      exact absurd rfl h

/-- C4: add_set rejects, in source order, with NoActiveSession when the user
has no open session; with InvalidSetType when a session is open but the set
type is neither working nor warmup; with ExerciseNotFound when the parsed
exercise id resolves to no catalog row; with reps OutOfRange outside
[1, 1000]; and with weight OutOfRange when a supplied weight falls outside
[0, 10000]. A rejection returns before any insert, so the store is unchanged;
a success changes the store by exactly one appended set row plus at most one
PR upsert, every other table untouched. -/
theorem C4_add_set_errors (u now : Nat) (ef rf : FormInt) (wf : FormRat)
    (stF : Option String) (s : Store) :
    (findOpen u s = none → addSet u now ef rf wf stF s = .error .noActiveSession) ∧
    (∀ a, findOpen u s = some a →
      stF.getD "working" ≠ "working" → stF.getD "working" ≠ "warmup" →
      addSet u now ef rf wf stF s = .error .invalidSetType) ∧
    (∀ a, findOpen u s = some a →
      (stF.getD "working" = "working" ∨ stF.getD "working" = "warmup") →
      ∀ i, ef = .val i → findExercise i s = none →
      addSet u now ef rf wf stF s = .error .exerciseNotFound) ∧
    (∀ a ex i, findOpen u s = some a →
      (stF.getD "working" = "working" ∨ stF.getD "working" = "warmup") →
      ef = .val i → findExercise i s = some ex →
      ∀ r, rf = .val r → (r < 1 ∨ 1000 < r) →
      addSet u now ef rf wf stF s = .error .repsOutOfRange) ∧
    (∀ a ex i, findOpen u s = some a →
      (stF.getD "working" = "working" ∨ stF.getD "working" = "warmup") →
      ef = .val i → findExercise i s = some ex →
      ∀ r, rf = .val r → 1 ≤ r → r ≤ 1000 →
      ∀ w, wf = .val w → (w < 0 ∨ 10000 < w) →
      addSet u now ef rf wf stF s = .error .weightOutOfRange) ∧
    (∀ s', addSet u now ef rf wf stF s = .ok s' →
      s'.sessions = s.sessions ∧ s'.exercises = s.exercises ∧
      s'.weightLogs = s.weightLogs ∧ s'.bloodworks = s.bloodworks ∧
      (∃ row, s'.logs = s.logs ++ [row]) ∧
      (s'.prs = s.prs ∨ ∃ e w2 r2, s'.prs = upsertPR u e w2 r2 now s.prs)) := by
  refine ⟨?_, ?_, ?_, ?_, ?_, ?_⟩
  · intro h
    unfold addSet
    rw [h]
  · intro a ha hne1 hne2
    have hb : (!(stF.getD "working" == "working" || stF.getD "working" == "warmup")) = true := by
      simp [hne1, hne2]
    unfold addSet
    rw [ha]
    dsimp only
    rw [if_pos hb]
  · intro a ha hst i hef hexn
    have hstb : (!(stF.getD "working" == "working" || stF.getD "working" == "warmup")) ≠ true := by
      cases hst with
      | inl h => simp [h]
      | inr h => simp [h]
    subst hef
    unfold addSet
    rw [ha]
    dsimp only
    rw [if_neg hstb, hexn]
  · intro a ex i ha hst hef hex r hrf hr
    have hstb : (!(stF.getD "working" == "working" || stF.getD "working" == "warmup")) ≠ true := by
      cases hst with
      | inl h => simp [h]
      | inr h => simp [h]
    subst hef
    subst hrf
    unfold addSet
    rw [ha]
    dsimp only
    rw [if_neg hstb, hex]
    dsimp only
    rw [if_pos hr]
  · intro a ex i ha hst hef hex r hrf hr1 hr2 w hwf hw
    have hstb : (!(stF.getD "working" == "working" || stF.getD "working" == "warmup")) ≠ true := by
      cases hst with
      | inl h => simp [h]
      | inr h => simp [h]
    subst hef
    subst hrf
    subst hwf
    unfold addSet
    rw [ha]
    dsimp only
    rw [if_neg hstb, hex]
    dsimp only
    rw [if_neg (by omega)]
    rw [if_pos hw]
  · intro s' h
    obtain ⟨a, ex, r, wopt, -, -, -, -, -, -, hs⟩ := addSet_ok_shape u now ef rf wf stF s s' h
    have hparts := insertSetAndPR_parts u now a ex r wopt (stF.getD "working") s
    subst hs
    refine ⟨hparts.1, hparts.2.1, hparts.2.2.1, hparts.2.2.2.1, ⟨_, hparts.2.2.2.2.1⟩, ?_⟩
    cases hparts.2.2.2.2.2 with
    | inl hp => exact Or.inl hp
    | inr hp =>
      obtain ⟨w2, -, hp2⟩ := hp
      exact Or.inr ⟨ex.eid, w2, r, hp2⟩

/-- Witness for C4: with no session the set is rejected, with a bad set type
it is rejected, an oversized weight is rejected, and a valid submission
appends exactly one set row. -/
theorem C4_add_set_errors_witness :
    addSet 3 40 (.val 9) (.val 10) (.val 100) none emptyStore = .error .noActiveSession ∧
    addSet 3 40 (.val 9) (.val 10) (.val 100) (some "sprint") numberingStore =
      .error .invalidSetType ∧
    addSet 3 40 (.val 9) (.val 10) (.val 20000) (some "working") numberingStore =
      .error .weightOutOfRange ∧
    (∀ s', addSet 3 40 (.val 9) (.val 10) (.val 100) (some "working") numberingStore = .ok s' →
      ∃ row, s'.logs = numberingStore.logs ++ [row]) := by
  refine ⟨(C4_add_set_errors 3 40 (.val 9) (.val 10) (.val 100) none emptyStore).1 (by decide),
    ?_, ?_, ?_⟩
  · exact (C4_add_set_errors 3 40 (.val 9) (.val 10) (.val 100) (some "sprint")
      numberingStore).2.1
      { sid := 1, userId := 3, startTime := 30, endTime := none,
        durationMinutes := none, createdAt := 30 } (by decide) (by decide) (by decide)
  · exact (C4_add_set_errors 3 40 (.val 9) (.val 10) (.val 20000) (some "working")
      numberingStore).2.2.2.2.1
      { sid := 1, userId := 3, startTime := 30, endTime := none,
        durationMinutes := none, createdAt := 30 }
      { eid := 9, name := [66], description := none, exerciseType := none,
        isBodyweight := false, isCardio := false } 9
      (by decide) (Or.inl rfl) rfl (by decide) 10 rfl (by omega) (by omega) 20000 rfl
      (Or.inr (by norm_num))
  · intro s' h
    exact ((C4_add_set_errors 3 40 (.val 9) (.val 10) (.val 100) (some "working")
      numberingStore).2.2.2.2.2 s' h).2.2.2.2.1

/-- C10: a working set with weight exactly 0 passes validation (0 is inside
[0, 10000]) and is stored, but never creates or updates a personal record,
exactly like a set whose weight field is absent; in general a successful
add_set changes the PR table only when it carried a strictly positive weight
on a working set. -/
theorem C10_zero_weight_no_pr (u now : Nat) (i r : Int) (stF : Option String)
    (s : Store) (active : SessionRow) (ex : ExerciseRow)
    (hopen : findOpen u s = some active) (hex : findExercise i s = some ex)
    (hr : 1 ≤ r ∧ r ≤ 1000)
    (hst : stF.getD "working" = "working" ∨ stF.getD "working" = "warmup") :
    (∃ s', addSet u now (.val i) (.val r) (.val 0) stF s = .ok s' ∧
      s'.prs = s.prs ∧
      s'.logs = s.logs ++
        [{ lid := s.nextLogId, sessionId := active.sid, exerciseId := ex.eid,
           setNumber := maxSetNumber active.sid ex.eid s.logs + 1, reps := some r,
           weight := some 0, calories := none, timeMinutes := none,
           setType := stF.getD "working", createdAt := now }]) ∧
    (∀ (ef2 rf2 : FormInt) (wf2 : FormRat) (stF2 : Option String) (s2 s2' : Store),
      addSet u now ef2 rf2 wf2 stF2 s2 = .ok s2' → s2'.prs ≠ s2.prs →
      ∃ w, wf2 = .val w ∧ 0 < w ∧ stF2.getD "working" = "working") := by
  constructor
  · obtain ⟨wopt, hok, -, hval⟩ := addSet_succeeds u now i r (.val 0) stF s active ex
      hopen hex hr (Or.inr ⟨0, rfl, le_refl 0, by norm_num⟩) hst
    have hw0 : wopt = some 0 := hval 0 rfl
    subst hw0
    refine ⟨_, hok, ?_, (insertSetAndPR_parts u now active ex r (some 0)
      (stF.getD "working") s).2.2.2.2.1⟩
    unfold insertSetAndPR
    dsimp only
    rw [if_neg (by simp)]
  · intro ef2 rf2 wf2 stF2 s2 s2' hok hne
    obtain ⟨a, ex2, r2, wopt, -, -, -, -, -, hwdisj, hs⟩ :=
      addSet_ok_shape u now ef2 rf2 wf2 stF2 s2 s2' hok
    subst hs
    obtain ⟨w, hwopt, hcond⟩ := insertSetAndPR_prs_changed u now a ex2 r2 wopt
      (stF2.getD "working") s2 hne
    rw [Bool.and_eq_true] at hcond
    have hstw : stF2.getD "working" = "working" := by
      have := hcond.1
      simpa using this
    have hwne : w ≠ 0 := by
      have := hcond.2
      simpa using this
    cases hwdisj with
    | inl hmiss =>
      rw [hmiss.2] at hwopt
      exact Option.noConfusion hwopt
    | inr hval =>
      obtain ⟨w2, hwf2, hsome, hw0, -⟩ := hval
      rw [hsome] at hwopt
      injection hwopt with hww
      rw [hww] at hwf2 hw0
      exact ⟨w, hwf2, lt_of_le_of_ne hw0 (Ne.symm hwne), hstw⟩

/-- Witness for C10: a 0 kg working set in a fresh session is accepted and
leaves the (empty) PR table empty. -/
theorem C10_zero_weight_no_pr_witness :
    ∃ s', addSet 3 40 (.val 9) (.val 10) (.val 0) (some "working") numberingStore = .ok s' ∧
      s'.prs = numberingStore.prs := by
  obtain ⟨s', hok, hprs, -⟩ := (C10_zero_weight_no_pr 3 40 9 10 (some "working") numberingStore
    { sid := 1, userId := 3, startTime := 30, endTime := none,
      durationMinutes := none, createdAt := 30 }
    { eid := 9, name := [66], description := none, exerciseType := none,
      isBodyweight := false, isCardio := false }
    (by decide) (by decide) (by omega) (Or.inl rfl)).1
  exact ⟨s', hok, hprs⟩

/-- Two character codes equal up to letter case. -/
def charCaseEq (c d : Nat) : Prop :=
  d = c ∨ (isAlphaCode c = true ∧ isAlphaCode d = true ∧ toLowerCode c = toLowerCode d)

/-- Two strings equal up to letter case, position by position. -/
def sameUpToCase (a b : PyStr) : Prop := List.Forall₂ charCaseEq a b

/-- Letters agreeing after lower-casing also agree after upper-casing. -/
lemma toUpperCode_congr (c d : Nat) (hc : isAlphaCode c = true) (hd : isAlphaCode d = true)
    (h : toLowerCode c = toLowerCode d) : toUpperCode c = toUpperCode d := by
  unfold isAlphaCode at hc hd
  simp only [Bool.or_eq_true, Bool.and_eq_true, decide_eq_true_eq] at hc hd
  unfold toLowerCode at h
  unfold toUpperCode
  split_ifs at h ⊢ <;> omega

/-- Title-casing is insensitive to the letter case of its input. -/
lemma pyTitleAux_congr : ∀ (l₁ l₂ : List Nat), List.Forall₂ charCaseEq l₁ l₂ →
    ∀ b : Bool, pyTitleAux b l₁ = pyTitleAux b l₂ := by
  intro l₁
  induction l₁ with
  | nil =>
    intro l₂ h b
    cases h
    rfl
  | cons c tl ih =>
    intro l₂ h b
    cases h with
    | cons hcd htail =>
      rename_i d tl2
      simp only [pyTitleAux]
      cases hcd with
      | inl hh =>
        subst hh
        rw [ih tl2 htail (isAlphaCode d)]
      | inr hh =>
        obtain ⟨hc, hd, hl⟩ := hh
        rw [hc, hd, if_pos rfl, if_pos rfl, ih tl2 htail true]
        congr 1
        cases b with
        | true => rw [if_pos rfl, if_pos rfl]; exact hl
        | false =>
          rw [if_neg (by simp), if_neg (by simp)]
          exact toUpperCode_congr c d hc hd hl

/-- Name normalization identifies inputs differing only in letter case or
surrounding whitespace. -/
lemma normalizeName_congr (n₁ n₂ : PyStr) (h : sameUpToCase (pyStrip n₁) (pyStrip n₂)) :
    normalizeName n₁ = normalizeName n₂ := by
  unfold normalizeName pyTitle
  exact pyTitleAux_congr (pyStrip n₁) (pyStrip n₂) h false


/-- Character codes of the submitted name " bench press ". -/
def benchSpaced : PyStr :=
  [32, 98, 101, 110, 99, 104, 32, 112, 114, 101, 115, 115, 32]

/-- Character codes of the normalized name "Bench Press". -/
def benchTitle : PyStr :=
  [66, 101, 110, 99, 104, 32, 80, 114, 101, 115, 115]

/-- C9: add_exercise normalizes the submitted name by stripping surrounding
whitespace and title-casing, fails with DuplicateExercise exactly when an
exercise with the identical normalized name is already stored, and the
normalization identifies any two submissions differing only in letter case
or surrounding whitespace; concretely " bench press " is stored as
"Bench Press" and resubmitting "Bench Press" is rejected as a duplicate. -/
theorem C9_add_exercise_normalization (nameIn d t : PyStr) (s : Store) :
    (2 ≤ (pyStrip nameIn).length →
      ((∃ ex ∈ s.exercises, ex.name = normalizeName nameIn) →
        add_exercise nameIn d t s = .error .duplicate) ∧
      (∀ s', add_exercise nameIn d t s = .ok s' →
        (∀ ex ∈ s.exercises, ex.name ≠ normalizeName nameIn) ∧
        ∃ row, s'.exercises = s.exercises ++ [row] ∧ row.name = normalizeName nameIn)) ∧
    (∀ other, sameUpToCase (pyStrip nameIn) (pyStrip other) →
      normalizeName nameIn = normalizeName other) ∧
    normalizeName benchSpaced = benchTitle ∧
    (∀ s1, add_exercise benchSpaced [] [] emptyStore = .ok s1 →
      add_exercise benchTitle [] [] s1 = .error .duplicate) := by
  refine ⟨?_, fun other h => normalizeName_congr nameIn other h, by decide, ?_⟩
  · intro hlen
    constructor
    · intro hex
      obtain ⟨ex, hmem, hname⟩ := hex
      unfold add_exercise
      rw [if_neg (by omega)]
      dsimp only
      cases hfind : s.exercises.find? (fun e => e.name == pyTitle (pyStrip nameIn)) with
      | none =>
        exfalso
        have hall := List.find?_eq_none.mp hfind ex hmem
        apply hall
        rw [hname]
        unfold normalizeName
        exact beq_self_eq_true _
      | some ex2 => rfl
    · intro s' h
      unfold add_exercise at h
      rw [if_neg (by omega)] at h
      dsimp only at h
      cases hfind : s.exercises.find? (fun e => e.name == pyTitle (pyStrip nameIn)) with
      | some ex2 =>
        rw [hfind] at h
        exact Except.noConfusion h
      | none =>
        rw [hfind] at h
        injection h with h2
        constructor
        · intro ex hmem hname
          have hall := List.find?_eq_none.mp hfind ex hmem
          apply hall
          rw [hname]
          unfold normalizeName
          exact beq_self_eq_true _
        · rw [← h2]
          exact ⟨_, rfl, rfl⟩
  · intro s1 h
    have hfirst : add_exercise benchSpaced [] [] emptyStore =
        .ok { emptyStore with
          exercises := [{ eid := 1, name := benchTitle, description := none,
                          exerciseType := none, isBodyweight := false, isCardio := false }],
          nextExerciseId := 2 } := by rfl
    rw [hfirst] at h
    injection h with h2
    rw [← h2]
    rfl

/-- Witness for C9: with "Bench Press" already in the catalog, submitting
" bench press " is rejected as a duplicate. -/
theorem C9_add_exercise_normalization_witness :
    add_exercise benchSpaced [] []
      { emptyStore with
        exercises := [{ eid := 1, name := benchTitle, description := none,
                        exerciseType := none, isBodyweight := false, isCardio := false }],
        nextExerciseId := 2 } = .error .duplicate := by
  refine ((C9_add_exercise_normalization benchSpaced [] [] _).1 (by decide)).1 ?_
  exact ⟨{ eid := 1, name := benchTitle, description := none, exerciseType := none,
           isBodyweight := false, isCardio := false }, by simp, by decide⟩


/-- Characterization of a successful checked weight-log insert: every present
field validated and exactly one row appended. -/
lemma add_weight_log_checked_ok (u : Nat) (wF bfF vfF : FormRat) (notes : PyStr)
    (la : Nat) (s : Store) :
    ∀ s', add_weight_log_checked u wF bfF vfF notes la s = .ok s' →
      (bfF = .missing ∨ ∃ b, bfF = .val b ∧ 0 ≤ b ∧ b ≤ 100) ∧
      (vfF = .missing ∨ ∃ v2, vfF = .val v2 ∧ 0 ≤ v2 ∧ v2 ≤ 100) ∧
      s'.sessions = s.sessions ∧ s'.logs = s.logs ∧ s'.prs = s.prs ∧
      s'.exercises = s.exercises ∧ s'.bloodworks = s.bloodworks ∧
      ∃ w, wF = .val w ∧ 0 < w ∧ w ≤ 500 ∧
        s'.weightLogs = s.weightLogs ++
          [{ userId := u, weight := w, bodyFatPercentage := bfF.toOption,
             visceralFat := vfF.toOption,
             notes := if (pyStrip notes).isEmpty then none else some (pyStrip notes),
             loggedAt := la }] := by
  intro s' hm
  unfold add_weight_log_checked at hm
  cases wF with
  | missing => exact Except.noConfusion hm
  | bad => exact Except.noConfusion hm
  | val w =>
    dsimp only at hm
    by_cases hw : w ≤ 0 ∨ 500 < w
    · rw [if_pos hw] at hm; exact Except.noConfusion hm
    · rw [if_neg hw] at hm
      push_neg at hw
      cases bfF with
      | bad => exact Except.noConfusion hm
      | missing =>
        dsimp only [checkOptField] at hm
        cases vfF with
        | bad => exact Except.noConfusion hm
        | missing =>
          dsimp only [checkOptField] at hm
          injection hm with hs2
          subst hs2
          exact ⟨Or.inl rfl, Or.inl rfl, rfl, rfl, rfl, rfl, rfl,
            w, rfl, hw.1, hw.2, rfl⟩
        | val v2 =>
          dsimp only [checkOptField] at hm
          by_cases hv : v2 < 0 ∨ 100 < v2
          · rw [if_pos hv] at hm; exact Except.noConfusion hm
          · rw [if_neg hv] at hm
            push_neg at hv
            injection hm with hs2
            subst hs2
            exact ⟨Or.inl rfl, Or.inr ⟨v2, rfl, hv.1, hv.2⟩, rfl, rfl, rfl, rfl, rfl,
              w, rfl, hw.1, hw.2, rfl⟩
      | val b =>
        dsimp only [checkOptField] at hm
        by_cases hb : b < 0 ∨ 100 < b
        · rw [if_pos hb] at hm; exact Except.noConfusion hm
        · rw [if_neg hb] at hm
          push_neg at hb
          cases vfF with
          | bad => exact Except.noConfusion hm
          | missing =>
            dsimp only [checkOptField] at hm
            injection hm with hs2
            subst hs2
            exact ⟨Or.inr ⟨b, rfl, hb.1, hb.2⟩, Or.inl rfl, rfl, rfl, rfl, rfl, rfl,
              w, rfl, hw.1, hw.2, rfl⟩
          | val v2 =>
            dsimp only [checkOptField] at hm
            by_cases hv : v2 < 0 ∨ 100 < v2
            · rw [if_pos hv] at hm; exact Except.noConfusion hm
            · rw [if_neg hv] at hm
              push_neg at hv
              injection hm with hs2
              subst hs2
              exact ⟨Or.inr ⟨b, rfl, hb.1, hb.2⟩, Or.inr ⟨v2, rfl, hv.1, hv.2⟩,
                rfl, rfl, rfl, rfl, rfl, w, rfl, hw.1, hw.2, rfl⟩

/-- C8: a weight-log submission is stored only when every present field
validates (weight present and in (0, 500], body-fat and visceral-fat, when
present, in [0, 100]); any unparsable or out-of-range field rejects the whole
submission with nothing persisted, and a success appends exactly one
measurement row, all other tables untouched. A bloodwork submission likewise
is stored in full exactly when its date and every present field parse, and
rejected wholesale (nothing persisted) when any present field is unparsable. -/
theorem C8_measurement_validation (u now : Nat) (wF bfF vfF : FormRat) (notes : PyStr)
    (dF : FormNat) (s : Store) (dF2 : FormNat)
    (t1 t2 sh oe pr hb gl ins ho : FormRat) (notes2 : PyStr) :
    (∀ s', add_weight_log u now wF bfF vfF notes dF s = .ok s' →
      dF ≠ .bad ∧
      (bfF = .missing ∨ ∃ b, bfF = .val b ∧ 0 ≤ b ∧ b ≤ 100) ∧
      (vfF = .missing ∨ ∃ v2, vfF = .val v2 ∧ 0 ≤ v2 ∧ v2 ≤ 100) ∧
      s'.sessions = s.sessions ∧ s'.logs = s.logs ∧ s'.prs = s.prs ∧
      s'.exercises = s.exercises ∧ s'.bloodworks = s.bloodworks ∧
      ∃ w, wF = .val w ∧ 0 < w ∧ w ≤ 500 ∧
        s'.weightLogs = s.weightLogs ++
          [{ userId := u, weight := w, bodyFatPercentage := bfF.toOption,
             visceralFat := vfF.toOption,
             notes := if (pyStrip notes).isEmpty then none else some (pyStrip notes),
             loggedAt := dateOrNow dF now }]) ∧
    ((wF = .bad ∨ (∃ w, wF = .val w ∧ (w ≤ 0 ∨ 500 < w)) ∨
      bfF = .bad ∨ (∃ b, bfF = .val b ∧ (b < 0 ∨ 100 < b)) ∨
      vfF = .bad ∨ (∃ v2, vfF = .val v2 ∧ (v2 < 0 ∨ 100 < v2))) →
      ∀ s', add_weight_log u now wF bfF vfF notes dF s ≠ .ok s') ∧
    (∀ s', add_bloodwork u now dF2 t1 t2 sh oe pr hb gl ins ho notes2 s = .ok s' →
      (dF2.isBad || t1.isBad || t2.isBad || sh.isBad || oe.isBad || pr.isBad ||
        hb.isBad || gl.isBad || ins.isBad || ho.isBad) = false ∧
      s'.sessions = s.sessions ∧ s'.logs = s.logs ∧ s'.prs = s.prs ∧
      s'.exercises = s.exercises ∧ s'.weightLogs = s.weightLogs ∧
      s'.bloodworks = s.bloodworks ++
        [{ userId := u, testDate := dateOrNow dF2 now,
           testosteroneTotal := t1.toOption, testosteroneFree := t2.toOption,
           shbg := sh.toOption, oestradiol := oe.toOption, prolactin := pr.toOption,
           hba1c := hb.toOption, glucoseFasting := gl.toOption,
           insulinFasting := ins.toOption, homaIndex := ho.toOption,
           notes := notes2, createdAt := now }]) ∧
    ((dF2.isBad || t1.isBad || t2.isBad || sh.isBad || oe.isBad || pr.isBad ||
      hb.isBad || gl.isBad || ins.isBad || ho.isBad) = true →
      add_bloodwork u now dF2 t1 t2 sh oe pr hb gl ins ho notes2 s = .error ()) := by
  have hmain : ∀ s', add_weight_log u now wF bfF vfF notes dF s = .ok s' →
      dF ≠ .bad ∧
      (bfF = .missing ∨ ∃ b, bfF = .val b ∧ 0 ≤ b ∧ b ≤ 100) ∧
      (vfF = .missing ∨ ∃ v2, vfF = .val v2 ∧ 0 ≤ v2 ∧ v2 ≤ 100) ∧
      s'.sessions = s.sessions ∧ s'.logs = s.logs ∧ s'.prs = s.prs ∧
      s'.exercises = s.exercises ∧ s'.bloodworks = s.bloodworks ∧
      ∃ w, wF = .val w ∧ 0 < w ∧ w ≤ 500 ∧
        s'.weightLogs = s.weightLogs ++
          [{ userId := u, weight := w, bodyFatPercentage := bfF.toOption,
             visceralFat := vfF.toOption,
             notes := if (pyStrip notes).isEmpty then none else some (pyStrip notes),
             loggedAt := dateOrNow dF now }] := by
    intro s' h
    unfold add_weight_log at h
    cases dF with
    | bad => exact Except.noConfusion h
    | missing =>
      obtain ⟨h1, h2, h3⟩ := add_weight_log_checked_ok u wF bfF vfF notes
        (dateOrNow .missing now) s s' h
      exact ⟨fun hcon => FormNat.noConfusion hcon, h1, h2, h3⟩
    | val d =>
      obtain ⟨h1, h2, h3⟩ := add_weight_log_checked_ok u wF bfF vfF notes
        (dateOrNow (.val d) now) s s' h
      exact ⟨fun hcon => FormNat.noConfusion hcon, h1, h2, h3⟩
  refine ⟨hmain, ?_, ?_, ?_⟩
  · intro hbad s' hok
    obtain ⟨-, hbf, hvf, -, -, -, -, -, w, hwval, hw0, hw500, -⟩ := hmain s' hok
    rcases hbad with hb2 | ⟨w2, hw2, hr⟩ | hb2 | ⟨b, hbv, hr⟩ | hb2 | ⟨v2, hvv, hr⟩
    · rw [hb2] at hwval; exact FormRat.noConfusion hwval
    · rw [hw2] at hwval
      injection hwval with he
      subst he
      rcases hr with hr | hr
      · exact absurd hw0 (not_lt.mpr hr)
      · exact absurd hw500 (not_le.mpr hr)
    · rcases hbf with hm | ⟨b, hbv, -⟩
      · rw [hb2] at hm; exact FormRat.noConfusion hm
      · rw [hb2] at hbv; exact FormRat.noConfusion hbv
    · rcases hbf with hm | ⟨b2, hbv2, h0, h100⟩
      · rw [hbv] at hm; exact FormRat.noConfusion hm
      · rw [hbv] at hbv2
        injection hbv2 with he
        subst he
        rcases hr with hr | hr
        · exact absurd h0 (not_le.mpr hr)
        · exact absurd h100 (not_le.mpr hr)
    · rcases hvf with hm | ⟨v3, hvv2, -⟩
      · rw [hb2] at hm; exact FormRat.noConfusion hm
      · rw [hb2] at hvv2; exact FormRat.noConfusion hvv2
    · rcases hvf with hm | ⟨v3, hvv2, h0, h100⟩
      · rw [hvv] at hm; exact FormRat.noConfusion hm
      · rw [hvv] at hvv2
        injection hvv2 with he
        subst he
        rcases hr with hr | hr
        · exact absurd h0 (not_le.mpr hr)
        · exact absurd h100 (not_le.mpr hr)
  · intro s' h
    unfold add_bloodwork at h
    by_cases hg : (dF2.isBad || t1.isBad || t2.isBad || sh.isBad || oe.isBad || pr.isBad ||
        hb.isBad || gl.isBad || ins.isBad || ho.isBad) = true
    · rw [if_pos hg] at h; exact Except.noConfusion h
    · rw [if_neg hg] at h
      injection h with hs2
      subst hs2
      exact ⟨Bool.eq_false_iff.mpr hg, rfl, rfl, rfl, rfl, rfl, rfl⟩
  · intro hg
    unfold add_bloodwork
    rw [if_pos hg]

/-- Witness for C8: an 80 kg entry with 20 percent body fat is stored as one
appended row, an entry with body fat above 100 is rejected, and a bloodwork
submission with an unparsable field is rejected. -/
theorem C8_measurement_validation_witness :
    (∀ s', add_weight_log 3 40 (.val 80) (.val 20) .missing [] .missing emptyStore = .ok s' →
      ∃ w, FormRat.val 80 = FormRat.val w ∧ 0 < w ∧ w ≤ 500 ∧
        s'.weightLogs = emptyStore.weightLogs ++
          [{ userId := 3, weight := w, bodyFatPercentage := (FormRat.val 20).toOption,
             visceralFat := FormRat.missing.toOption,
             notes := if (pyStrip []).isEmpty then none else some (pyStrip []),
             loggedAt := dateOrNow .missing 40 }]) ∧
    (∀ s', add_weight_log 3 40 (.val 80) (.val 120) .missing [] .missing emptyStore ≠ .ok s') ∧
    add_bloodwork 3 40 .missing .bad .missing .missing .missing .missing .missing .missing
      .missing .missing [] emptyStore = .error () := by
  refine ⟨?_, ?_, ?_⟩
  · intro s' h
    exact ((C8_measurement_validation 3 40 (.val 80) (.val 20) .missing [] .missing emptyStore
      .missing .missing .missing .missing .missing .missing .missing .missing .missing
      .missing []).1 s' h).2.2.2.2.2.2.2.2
  · exact (C8_measurement_validation 3 40 (.val 80) (.val 120) .missing [] .missing emptyStore
      .missing .missing .missing .missing .missing .missing .missing .missing .missing
      .missing []).2.1 (Or.inr (Or.inr (Or.inr (Or.inl ⟨120, rfl, Or.inr (by norm_num)⟩))))
  · exact (C8_measurement_validation 3 40 (.val 80) (.val 20) .missing [] .missing emptyStore
      .missing .bad .missing .missing .missing .missing .missing .missing .missing
      .missing []).2.2.2 (by decide)

/-- Every clinical reference range has a strictly positive span. -/
lemma refSpan_pos (f : BWField) : 0 < refMax f - refMin f := by
  cases f <;> norm_num [refMax, refMin]

/-- Rounding zero to one decimal gives zero. -/
lemma pyRound1_zero : pyRound1 0 = 0 := by
  have h0 : (0 : ℚ) * 10 = 0 := by norm_num
  unfold pyRound1 roundHalfEven
  rw [h0, ratFloor_eq]
  norm_num

/-- Rounding a negative rational to one decimal never gives a positive
result. -/
lemma pyRound1_nonpos (q : ℚ) (h : q < 0) : pyRound1 q ≤ 0 := by
  have h10 : q * 10 < 0 := mul_neg_of_neg_of_pos h (by norm_num)
  have hf : ⌊q * 10⌋ ≤ -1 := by
    have hlt : ⌊q * 10⌋ < 0 := Int.floor_lt.mpr (by exact_mod_cast h10)
    omega
  unfold pyRound1 roundHalfEven
  rw [ratFloor_eq]
  have hcast : ∀ z : ℤ, z ≤ 0 → ((z : ℚ) / 10 : ℚ) ≤ 0 := by
    intro z hz
    apply div_nonpos_of_nonpos_of_nonneg
    · exact_mod_cast hz
    · norm_num
  dsimp only
  split_ifs
  · exact hcast _ (by omega)
  · exact hcast _ (by omega)
  · exact hcast _ (by omega)
  · exact hcast _ (by omega)

/-- C7, amended: for a present bloodwork value v with reference range
[min, max], the status is low when v < min, high when v > max and normal
otherwise, and the percentage is round(((v - min) / (max - min)) * 100, 1);
v = min yields percentage 0 with status normal, and v < min yields status low
with a percentage that is at most 0 — not always strictly negative, because a
value barely below the minimum rounds to 0.0 at one decimal. The percentage
may fall outside [0, 100]. -/
theorem C7_reference_range_normalizer (f : BWField) (v : ℚ) (row : BloodworkRow)
    (hv : row.getValue f = some v) :
    (v < refMin f → row.get_status f = some "low") ∧
    (refMax f < v → row.get_status f = some "high") ∧
    (refMin f ≤ v → v ≤ refMax f → row.get_status f = some "normal") ∧
    row.get_percentage_of_range f =
      some (pyRound1 ((v - refMin f) / (refMax f - refMin f) * 100)) ∧
    (v = refMin f → row.get_percentage_of_range f = some 0) ∧
    (v < refMin f → ∃ q, row.get_percentage_of_range f = some q ∧ q ≤ 0) := by
  have hper : row.get_percentage_of_range f =
      some (pyRound1 ((v - refMin f) / (refMax f - refMin f) * 100)) := by
    unfold BloodworkRow.get_percentage_of_range
    rw [hv]
  refine ⟨?_, ?_, ?_, hper, ?_, ?_⟩
  · intro h
    unfold BloodworkRow.get_status
    rw [hv]
    dsimp only
    rw [if_pos h]
  · intro h
    unfold BloodworkRow.get_status
    rw [hv]
    dsimp only
    have hmin : refMin f < v := lt_trans (by have := refSpan_pos f; linarith) h
    rw [if_neg (not_lt.mpr hmin.le), if_pos h]
  · intro h1 h2
    unfold BloodworkRow.get_status
    rw [hv]
    dsimp only
    rw [if_neg (not_lt.mpr h1), if_neg (not_lt.mpr h2)]
  · intro h
    rw [hper, h]
    rw [show (refMin f - refMin f) / (refMax f - refMin f) * 100 = 0 by
      rw [sub_self, zero_div, zero_mul]]
    rw [pyRound1_zero]
  · intro h
    refine ⟨_, hper, ?_⟩
    apply pyRound1_nonpos
    apply mul_neg_of_neg_of_pos ?_ (by norm_num)
    exact div_neg_of_neg_of_pos (sub_neg.mpr h) (refSpan_pos f)

/-- Bloodwork row holding only a HOMA index of -0.0002, just below its
reference minimum of 0. -/
def lowBloodworkRow : BloodworkRow :=
  { userId := 0, testDate := 0, testosteroneTotal := none, testosteroneFree := none,
    shbg := none, oestradiol := none, prolactin := none, hba1c := none,
    glucoseFasting := none, insulinFasting := none, homaIndex := some (-1/5000),
    notes := [], createdAt := 0 }

/-- Counterexample to C7 as stated: a HOMA index of -0.0002 lies strictly
below the range minimum 0, the status is low, yet the displayed percentage is
exactly 0 — not negative — because round(-0.01, 1) = 0. -/
theorem C7_reference_range_normalizer_cex :
    lowBloodworkRow.get_status .homaIndex = some "low" ∧
    lowBloodworkRow.get_percentage_of_range .homaIndex = some 0 ∧
    ∀ q, lowBloodworkRow.get_percentage_of_range .homaIndex = some q → ¬ q < 0 := by
  have hval : lowBloodworkRow.getValue .homaIndex = some (-1/5000) := rfl
  have hstat : lowBloodworkRow.get_status .homaIndex = some "low" := by
    unfold BloodworkRow.get_status
    rw [hval]
    dsimp only
    rw [if_pos (by norm_num [refMin])]
  have harg : ((-1/5000 : ℚ) - refMin .homaIndex) /
      (refMax .homaIndex - refMin .homaIndex) * 100 = -1/100 := by
    norm_num [refMin, refMax]
  have hr0 : pyRound1 (-1/100 : ℚ) = 0 := by
    have hfloor : ⌊(-1/100 : ℚ) * 10⌋ = -1 := by norm_num
    unfold pyRound1 roundHalfEven
    rw [ratFloor_eq, hfloor]
    norm_num
  have hper : lowBloodworkRow.get_percentage_of_range .homaIndex = some 0 := by
    unfold BloodworkRow.get_percentage_of_range
    rw [hval]
    dsimp only
    rw [harg, hr0]
  refine ⟨hstat, hper, ?_⟩
  intro q hq
  rw [hper] at hq
  injection hq with h2
  rw [← h2]
  norm_num

/-- Witness for the amended C7: a HOMA index of 1 sits inside [0, 2], gets
status normal and percentage 50. -/
theorem C7_reference_range_normalizer_witness :
    ({ lowBloodworkRow with homaIndex := some 1 } : BloodworkRow).get_status
        .homaIndex = some "normal" ∧
    ({ lowBloodworkRow with homaIndex := some 1 } : BloodworkRow).get_percentage_of_range
        .homaIndex = some 50 := by
  have h := C7_reference_range_normalizer .homaIndex 1
    { lowBloodworkRow with homaIndex := some 1 } rfl
  refine ⟨h.2.2.1 (by norm_num [refMin]) (by norm_num [refMax]), ?_⟩
  rw [h.2.2.2.1]
  have harg : ((1 : ℚ) - refMin .homaIndex) /
      (refMax .homaIndex - refMin .homaIndex) * 100 = 50 := by
    norm_num [refMin, refMax]
  rw [harg]
  have hfloor : ⌊(50 : ℚ) * 10⌋ = 500 := by norm_num
  unfold pyRound1 roundHalfEven
  rw [ratFloor_eq, hfloor]
  norm_num
